import Mathlib

/-! Hybrid Intrusion Detection System — decision core, shallow embedding.

A Lean model of the hybrid decision core of the repository:

* `src/backend/rules_engine.py`   — `RulesEngine` (`_load_rules`, `evaluate`,
  `_evaluate_condition`, `_severity_to_score`)
* `src/backend/decision_engine.py` — `DecisionEngine` (`evaluate`,
  `_determine_severity`)
* `src/backend/model_loader.py`   — `ModelLoader` (`prepare_features`, `predict`)

Numbers are modelled as exact rationals (`ℚ`).  Python `round(x, n)` is
modelled by `round (x * 10^n) / 10^n`; Python uses round-half-to-even while
Mathlib `round` is round-half-up, but every value these theorems round is a
rational whose distance to the nearest half-ulp is nonzero (severity weights
are multiples of 1/10, fused scores are multiples of 1/100000 with an even
numerator at the rounding digit), so the two policies agree on all values
reached here.

Rule conditions are Python expression strings passed to
`eval(condition, {}, features)`.  We embed the parsed form of such a string
as an inductive `Expr` covering the constructs the spec's predicate grammar
names (feature references, numeric and string literals, comparisons,
boolean combinators, arithmetic) plus the constructs it forbids (function
calls and attribute access).  Evaluating a call or attribute access runs
arbitrary host code whose result the model does not capture; it is embedded
as the opaque outcome `EvalErr.hostCall` — no claim depends on the value
such an expression produces, only on whether loading rejects it.
-/

namespace HybridIDS

/-- One traffic window: an association list from feature name to numeric
value, as the Python `feature_dict`. -/
def FeatureWindow := List (String × ℚ)

/-- Name lookup in a feature window (Python `features[name]` resolution
inside `eval`). -/
def lookupFeature (w : FeatureWindow) (x : String) : Option ℚ :=
  List.lookup x w

/-- Comparison operators of the predicate language. -/
inductive CmpOp where
  | lt | le | gt | ge | eq | ne
deriving DecidableEq, Repr

/-- Arithmetic operators of the predicate language. -/
inductive ArithOp where
  | add | sub | mul | div
deriving DecidableEq, Repr

/-- Parsed form of a rule condition string (a Python expression).  The
constructors `call` and `attr` represent function calls and
attribute/member access — constructs outside the spec's constrained
predicate grammar. -/
inductive Expr where
  | num (q : ℚ)
  | str (s : String)
  | name (x : String)
  | arith (op : ArithOp) (a b : Expr)
  | cmp (op : CmpOp) (a b : Expr)
  | and (a b : Expr)
  | or (a b : Expr)
  | not (a : Expr)
  | call (f : Expr) (args : List Expr)
  | attr (e : Expr) (field : String)
deriving Repr

/-- Runtime values of condition evaluation (the Python values that can
arise: numbers, strings, booleans). -/
inductive Val where
  | num (q : ℚ)
  | str (s : String)
  | bool (b : Bool)
deriving DecidableEq, Repr

/-- Exceptions condition evaluation can raise. `hostCall` stands for the
execution of arbitrary host code (function call / attribute access), whose
outcome the model does not track. -/
inductive EvalErr where
  | nameError (x : String)
  | typeError
  | zeroDiv
  | hostCall
deriving DecidableEq, Repr

/-- Python truthiness (`bool(v)`). -/
def truthy : Val → Bool
  | .bool b => b
  | .num q => decide (q ≠ 0)
  | .str s => decide (s ≠ "")

/-- Numeric view of a value: Python treats booleans as the integers 0/1 in
numeric contexts. -/
def toNum : Val → Option ℚ
  | .num q => some q
  | .bool b => some (if b then 1 else 0)
  | .str _ => none

/-- Arithmetic on values: numbers combine as rationals, `+` concatenates
strings, division by zero raises, anything else is a type error. -/
def evalArith : ArithOp → Val → Val → Except EvalErr Val
  | op, a, b =>
    match toNum a, toNum b with
    | some x, some y =>
      match op with
      | .add => .ok (.num (x + y))
      | .sub => .ok (.num (x - y))
      | .mul => .ok (.num (x * y))
      | .div => if y = 0 then .error .zeroDiv else .ok (.num (x / y))
    | _, _ =>
      match op, a, b with
      | .add, .str s, .str t => .ok (.str (s ++ t))
      | _, _, _ => .error .typeError

/-- Numeric comparison. -/
def cmpQ : CmpOp → ℚ → ℚ → Bool
  | .lt, x, y => decide (x < y)
  | .le, x, y => decide (x ≤ y)
  | .gt, x, y => decide (y < x)
  | .ge, x, y => decide (y ≤ x)
  | .eq, x, y => decide (x = y)
  | .ne, x, y => decide (x ≠ y)

/-- String comparison (Python lexicographic order). -/
def cmpStr : CmpOp → String → String → Except EvalErr Bool
  | .lt, s, t => .ok (decide (s < t))
  | .le, s, t => .ok (decide (¬ t < s))
  | .gt, s, t => .ok (decide (t < s))
  | .ge, s, t => .ok (decide (¬ s < t))
  | .eq, s, t => .ok (decide (s = t))
  | .ne, s, t => .ok (decide (s ≠ t))

/-- Comparison on values: numeric kinds compare as rationals, strings
compare lexicographically; across kinds `==`/`!=` yield false/true and
order comparisons raise a type error. -/
def evalCmp : CmpOp → Val → Val → Except EvalErr Val
  | op, a, b =>
    match toNum a, toNum b with
    | some x, some y => .ok (.bool (cmpQ op x y))
    | _, _ =>
      match a, b with
      | .str s, .str t => (cmpStr op s t).map .bool
      | _, _ =>
        match op with
        | .eq => .ok (.bool false)
        | .ne => .ok (.bool true)
        | _ => .error .typeError

/-- Evaluation of a condition expression against a feature window, the
model of Python `eval(condition, {}, features)`: names resolve in the
feature dictionary only (an absent name raises `NameError`), `and`/`or`
short-circuit and return the deciding operand as Python does, and a
function call or attribute access is the opaque host-execution outcome
`hostCall`. -/
def evalExpr : Expr → FeatureWindow → Except EvalErr Val
  | .num q, _ => .ok (.num q)
  | .str s, _ => .ok (.str s)
  | .name x, w =>
    match lookupFeature w x with
    | some v => .ok (.num v)
    | none => .error (.nameError x)
  | .arith op a b, w =>
    match evalExpr a w with
    | .error e => .error e
    | .ok va =>
      match evalExpr b w with
      | .error e => .error e
      | .ok vb => evalArith op va vb
  | .cmp op a b, w =>
    match evalExpr a w with
    | .error e => .error e
    | .ok va =>
      match evalExpr b w with
      | .error e => .error e
      | .ok vb => evalCmp op va vb
  | .and a b, w =>
    match evalExpr a w with
    | .error e => .error e
    | .ok va => if truthy va then evalExpr b w else .ok va
  | .or a b, w =>
    match evalExpr a w with
    | .error e => .error e
    | .ok va => if truthy va then .ok va else evalExpr b w
  | .not a, w =>
    match evalExpr a w with
    | .error e => .error e
    | .ok va => .ok (.bool (! truthy va))
  | .call _ _, _ => .error .hostCall
  | .attr _ _, _ => .error .hostCall

/-- `RulesEngine._evaluate_condition`: `bool(eval(condition, {}, features))`. -/
def evaluate_condition (condition : Expr) (features : FeatureWindow) :
    Except EvalErr Bool :=
  (evalExpr condition features).map truthy

/-- Whether an expression uses a construct outside the spec's constrained
predicate grammar (a function call or attribute/member access anywhere in
it). -/
def containsDisallowed : Expr → Bool
  | .num _ => false
  | .str _ => false
  | .name _ => false
  | .arith _ a b => containsDisallowed a || containsDisallowed b
  | .cmp _ a b => containsDisallowed a || containsDisallowed b
  | .and a b => containsDisallowed a || containsDisallowed b
  | .or a b => containsDisallowed a || containsDisallowed b
  | .not a => containsDisallowed a
  | .call _ _ => true
  | .attr _ _ => true

/-! Rules engine (`src/backend/rules_engine.py`) -/

/-- One rule record as parsed from the YAML rule file.  `id` and
`condition` are the keys the engine accesses unconditionally
(`rule["id"]`, `rule["condition"]`); `description` and `severity` are read
with `rule.get(key, default)`, so absence is representable. -/
structure Rule where
  id : String
  description : Option String
  severity : Option String
  condition : Expr
deriving Repr

/-- What the YAML rule source parses to: the file may be missing, may
parse to something that is not a list, or parses to a list of rule
records. -/
inductive RuleSource where
  | missing
  | notAList
  | list (rules : List Rule)

/-- Load-time failures of `RulesEngine._load_rules`: `FileNotFoundError`
when the rules file does not exist, `ValueError` when the YAML content is
not a list.  (The spec's `RuleDefinitionError` is the load-time failure
class.) -/
inductive LoadErr where
  | fileNotFound
  | notAList
deriving DecidableEq, Repr

/-- `RulesEngine._load_rules`: raises if the file is missing or its
content is not a list; otherwise the parsed list becomes the engine's rule
set unchanged — no per-rule validation of ids, severities or condition
expressions happens at load time. -/
def load_rules : RuleSource → Except LoadErr (List Rule)
  | .missing => .error .fileNotFound
  | .notAList => .error .notAList
  | .list rules => .ok rules

/-- Python `str.lower()`: lower-case every character (the labels at issue
are ASCII, where per-character lowering is exactly `str.lower`). -/
def strLower (s : String) : String :=
  String.mk (s.data.map Char.toLower)

/-- `RulesEngine._severity_to_score`: `mapping.get(severity.lower(), 0.2)`
with `mapping = {low: 0.2, medium: 0.4, high: 0.7, critical: 1.0}`. -/
def severity_to_score (severity : String) : ℚ :=
  let s := strLower severity
  if s = "low" then 0.2
  else if s = "medium" then 0.4
  else if s = "high" then 0.7
  else if s = "critical" then 1.0
  else 0.2

/-- One entry of `matched_rules` as built in `RulesEngine.evaluate`:
`{"rule_id": rule["id"], "description": rule.get("description", ""),
"severity": rule.get("severity", "low")}`. -/
structure MatchedRule where
  rule_id : String
  description : String
  severity : String
deriving DecidableEq, Repr

/-- The severity label `RulesEngine.evaluate` works with:
`rule.get("severity", "low")` — the raw label when present, `"low"` when
absent. -/
def ruleSeverity (r : Rule) : String :=
  r.severity.getD "low"

/-- `rule.get("description", "")`. -/
def ruleDescription (r : Rule) : String :=
  r.description.getD ""

/-- The `matched_rules` entry `RulesEngine.evaluate` appends for rule `r`. -/
def matchedEntry (r : Rule) : MatchedRule :=
  ⟨r.id, ruleDescription r, ruleSeverity r⟩

/-- Result of `RulesEngine.evaluate`.  The Python function returns
`matched_rules` and `rule_score`; `warnings` models the
`⚠️ Rule evaluation failed [id]` lines printed for rules whose predicate
raised (one entry per skipped rule, holding its id). -/
structure RuleResult where
  matched_rules : List MatchedRule
  rule_score : ℚ
  warnings : List String
deriving Repr

/-- Accumulator state of the loop in `RulesEngine.evaluate`:
(`matched_rules`, `total_severity_score`, warnings printed so far). -/
abbrev RuleAcc := List MatchedRule × ℚ × List String

/-- One iteration of the loop in `RulesEngine.evaluate`: evaluate the
rule's condition; on a true result append the matched entry and add the
severity weight; on a raised exception print a warning and continue. -/
def evalStep (w : FeatureWindow) (acc : RuleAcc) (r : Rule) : RuleAcc :=
  match evaluate_condition r.condition w with
  | .ok true =>
    (acc.1 ++ [matchedEntry r], acc.2.1 + severity_to_score (ruleSeverity r), acc.2.2)
  | .ok false => acc
  | .error _ => (acc.1, acc.2.1, acc.2.2 ++ [r.id])

/-- Python `round(q, 3)` on the exact rational `q`. -/
def round3 (q : ℚ) : ℚ :=
  (round (q * 1000) : ℤ) / 1000

/-- Python `round(q, 4)` on the exact rational `q`. -/
def round4 (q : ℚ) : ℚ :=
  (round (q * 10000) : ℤ) / 10000

/-- `RulesEngine.evaluate`: run every rule in declaration order, then
`rule_score = round(min(total_severity_score, 1.0), 3)`. -/
def rulesEvaluate (rules : List Rule) (w : FeatureWindow) : RuleResult :=
  let acc := rules.foldl (evalStep w) ([], 0, [])
  { matched_rules := acc.1
    rule_score := round3 (min acc.2.1 1)
    warnings := acc.2.2 }

/-! Model loader (`src/backend/model_loader.py`)

The scaler, decision function and label predictor are joblib artifacts
loaded from disk, external to the repository's source; they enter the
model as abstract functions on the prepared feature vector.  The Python
code in `prepare_features` and `predict` — ordering, missing-feature
failure, clipping and rounding — is embedded faithfully. -/

/-- Failure of `ModelLoader.prepare_features`: the `ValueError` raised
with the message `Missing feature in input data: name` when the window
lacks a feature of the canonical order. -/
inductive PredictErr where
  | missingFeature (x : String)
deriving DecidableEq, Repr

/-- A loaded `ModelLoader`: the canonical feature order from the metadata
file, and the external scaler / model artifacts as abstract functions. -/
structure ModelLoader where
  feature_order : List String
  scalerTransform : List ℚ → List ℚ
  decision_function : List ℚ → ℚ
  predictLabel : List ℚ → Int

/-- The list comprehension `[feature_dict[f] for f in self.feature_order]`:
values in canonical order, raising at the first feature absent from the
window. -/
def collectFeatures (order : List String) (w : FeatureWindow) :
    Except PredictErr (List ℚ) :=
  match order with
  | [] => .ok []
  | f :: rest =>
    match lookupFeature w f with
    | none => .error (.missingFeature f)
    | some v => (collectFeatures rest w).map (v :: ·)

/-- `ModelLoader.prepare_features`: gather features in canonical order
(first missing feature raises naming it), then apply the scaler. -/
def prepare_features (m : ModelLoader) (w : FeatureWindow) :
    Except PredictErr (List ℚ) :=
  (collectFeatures m.feature_order w).map m.scalerTransform

/-- `np.clip q lo hi`. -/
def clip (q lo hi : ℚ) : ℚ :=
  max lo (min q hi)

/-- Result of `ModelLoader.predict`. -/
structure MLResult where
  anomaly_score : ℚ
  is_anomaly : Bool
deriving DecidableEq, Repr

/-- `ModelLoader.predict`: prepare the features (propagating a missing-
feature failure), then `anomaly_score = round(clip(1 - raw, 0, 1), 4)` and
`is_anomaly = (prediction == -1)`. -/
def predict (m : ModelLoader) (w : FeatureWindow) : Except PredictErr MLResult :=
  match prepare_features m w with
  | .error e => .error e
  | .ok X =>
    .ok { anomaly_score := round4 (clip (1 - m.decision_function X) 0 1)
          is_anomaly := m.predictLabel X == -1 }

/-! Decision engine (`src/backend/decision_engine.py`) -/

/-- `DecisionEngine.__init__` configuration, with the constructor's
default values. -/
structure DecisionConfig where
  ml_weight : ℚ := 0.6
  rule_weight : ℚ := 0.4
  alert_threshold : ℚ := 0.7
deriving Repr

/-- `DecisionEngine._determine_severity`: a matched rule whose stored
severity label equals `"critical"` (raw string comparison) forces
`critical`; otherwise the score thresholds 0.9 / 0.75 / 0.5 decide. -/
def determine_severity (final_score : ℚ) (matched_rules : List MatchedRule) :
    String :=
  if matched_rules.any (fun r => r.severity == "critical") then "critical"
  else if final_score ≥ 0.9 then "critical"
  else if final_score ≥ 0.75 then "high"
  else if final_score ≥ 0.5 then "medium"
  else "low"

/-- The dictionary `DecisionEngine.evaluate` returns. -/
structure DecisionResult where
  ml_score : ℚ
  rule_score : ℚ
  final_score : ℚ
  is_intrusion : Bool
  severity : String
  matched_rules : List MatchedRule
deriving Repr

/-- `DecisionEngine.evaluate`: ML prediction first (an exception there
propagates to the caller and no result dictionary is built), then rule
evaluation, then
`final_score = round(ml_weight * ml_score + rule_weight * rule_score, 4)`,
`is_intrusion = final_score >= alert_threshold`, and severity
classification. -/
def decisionEvaluate (cfg : DecisionConfig) (m : ModelLoader)
    (rules : List Rule) (w : FeatureWindow) : Except PredictErr DecisionResult :=
  match predict m w with
  | .error e => .error e
  | .ok ml =>
    let rr := rulesEvaluate rules w
    let final_score := round4 (cfg.ml_weight * ml.anomaly_score +
      cfg.rule_weight * rr.rule_score)
    .ok { ml_score := ml.anomaly_score
          rule_score := rr.rule_score
          final_score := final_score
          is_intrusion := decide (final_score ≥ cfg.alert_threshold)
          severity := determine_severity final_score rr.matched_rules
          matched_rules := rr.matched_rules }

/-! Concrete rule sets, windows and model loaders used to instantiate the
theorems below. -/

/-- A rule whose condition contains a function call — a construct outside
the spec's constrained predicate grammar. -/
def callRule : Rule :=
  { id := "r_exec", description := none, severity := some "low",
    condition := .call (.name "system") [.str "payload"] }

/-- Two distinct rules sharing the id `"dup"`. -/
def dupRuleA : Rule :=
  { id := "dup", description := some "first", severity := some "low",
    condition := .cmp .gt (.name "x") (.num 0) }

/-- See `dupRuleA`. -/
def dupRuleB : Rule :=
  { id := "dup", description := some "second", severity := some "high",
    condition := .cmp .gt (.name "x") (.num 1) }

/-- A valid high-severity rule matching `wRules`. -/
def ruleHigh : Rule :=
  { id := "r_high", description := some "high traffic", severity := some "high",
    condition := .cmp .gt (.name "bytes_out") (.num 100000) }

/-- A valid rule with no severity label, matching `wRules`. -/
def ruleLow : Rule :=
  { id := "r_low", description := none, severity := none,
    condition := .cmp .ge (.name "x") (.num 1) }

/-- A rule referencing a feature absent from `wRules`: its predicate
raises `NameError` at evaluation time. -/
def badRule : Rule :=
  { id := "r_bad", description := none, severity := some "medium",
    condition := .cmp .gt (.name "no_such_feature") (.num 5) }

/-- A rule with the unrecognized severity label `"banana"`, matching `wX`. -/
def bananaRule : Rule :=
  { id := "r_banana", description := none, severity := some "banana",
    condition := .cmp .gt (.name "x") (.num 0) }

/-- A matching rule labelled `"critical"` (exact lower case). -/
def critRule : Rule :=
  { id := "r_crit", description := none, severity := some "critical",
    condition := .cmp .gt (.name "x") (.num 0) }

/-- A matching rule labelled `"Critical"` — equal to `"critical"` only up
to letter case. -/
def casedRule : Rule :=
  { id := "r_cased", description := some "cased", severity := some "Critical",
    condition := .cmp .gt (.name "x") (.num 0) }

/-- A window carrying the features `ruleHigh` and `ruleLow` reference. -/
def wRules : FeatureWindow := [("bytes_out", 500000), ("x", 2)]

/-- A one-feature window with `x = 1`. -/
def wX : FeatureWindow := [("x", 1)]

/-- A loader expecting `f1` and `f2`, with a constant external model. -/
def mldr2 : ModelLoader :=
  { feature_order := ["f1", "f2"], scalerTransform := id,
    decision_function := fun _ => 1/2, predictLabel := fun _ => -1 }

/-- A loader with `f1` as its only feature, scoring 1/2. -/
def mldr1 : ModelLoader :=
  { feature_order := ["f1"], scalerTransform := id,
    decision_function := fun _ => 1/2, predictLabel := fun _ => -1 }

/-- A loader with no required features whose raw decision value 0 yields
the maximal anomaly score 1. -/
def mldrTop : ModelLoader :=
  { feature_order := [], scalerTransform := id,
    decision_function := fun _ => 0, predictLabel := fun _ => -1 }

/-- A window holding only `f1` (so `f2` is missing for `mldr2`). -/
def wOne : FeatureWindow := [("f1", 3)]

/-- A weight configuration whose weights lie in `[0,1]` but sum to 1.8. -/
def cfgHeavy : DecisionConfig :=
  { ml_weight := 0.9, rule_weight := 0.9, alert_threshold := 0.7 }

/-- The default configuration of `DecisionEngine.__init__`. -/
def defaultConfig : DecisionConfig := {}

/-! Decidable equality on `Except`, used to state concrete evaluations. -/

instance {ε α : Type} [DecidableEq ε] [DecidableEq α] : DecidableEq (Except ε α) := fun
  | .ok a, .ok b =>
    if h : a = b then .isTrue (by rw [h]) else .isFalse (by simp [h])
  | .ok _, .error _ => .isFalse (by simp)
  | .error _, .ok _ => .isFalse (by simp)
  | .error e, .error f =>
    if h : e = f then .isTrue (by rw [h]) else .isFalse (by simp [h])

/-! Helper lemmas on rounding. -/

lemma roundQ_mono {x y : ℚ} (h : x ≤ y) : round x ≤ round y := by
  rw [round_eq, round_eq]
  exact Int.floor_mono (by linarith)

lemma roundScaled_bounds (n : ℕ) (hn : 0 < (n : ℚ)) {q : ℚ} (h0 : 0 ≤ q)
    (h1 : q ≤ 1) : 0 ≤ ((round (q * n) : ℤ) : ℚ) / n ∧
      ((round (q * n) : ℤ) : ℚ) / n ≤ 1 := by
  have l0 : (0 : ℤ) ≤ round (q * n) := by
    have h := roundQ_mono (show (0 : ℚ) ≤ q * n by positivity)
    rwa [round_zero] at h
  have l1 : round (q * n) ≤ (n : ℤ) := by
    have h := roundQ_mono (show q * (n : ℚ) ≤ (n : ℚ) by nlinarith)
    rwa [round_natCast] at h
  constructor
  · apply div_nonneg _ (le_of_lt hn)
    exact_mod_cast l0
  · rw [div_le_one hn]
    exact_mod_cast l1

lemma round3_bounds {q : ℚ} (h0 : 0 ≤ q) (h1 : q ≤ 1) :
    0 ≤ round3 q ∧ round3 q ≤ 1 := by
  have h := roundScaled_bounds 1000 (by norm_num) h0 h1
  simpa [round3] using h

lemma round4_bounds {q : ℚ} (h0 : 0 ≤ q) (h1 : q ≤ 1) :
    0 ≤ round4 q ∧ round4 q ≤ 1 := by
  have h := roundScaled_bounds 10000 (by norm_num) h0 h1
  simpa [round4] using h

/-! Helper characterization of `RulesEngine.evaluate` as filters over the
rule list: which rules match, which rules fail, and the weight sum. -/

/-- A rule whose condition evaluates to a truthy value on the window. -/
def ruleMatches (w : FeatureWindow) (r : Rule) : Bool :=
  match evaluate_condition r.condition w with
  | .ok true => true
  | _ => false

/-- A rule whose condition raises on the window. -/
def ruleFails (w : FeatureWindow) (r : Rule) : Bool :=
  match evaluate_condition r.condition w with
  | .error _ => true
  | _ => false

/-- The rules of the set that match the window, in declaration order. -/
def matchedOf (rules : List Rule) (w : FeatureWindow) : List Rule :=
  rules.filter (ruleMatches w)

/-- The rules of the set whose condition raises on the window. -/
def failedOf (rules : List Rule) (w : FeatureWindow) : List Rule :=
  rules.filter (ruleFails w)

/-- Sum of the severity weights of a list of rules. -/
def weightSum (rs : List Rule) : ℚ :=
  (rs.map (fun r => severity_to_score (ruleSeverity r))).sum

lemma foldl_evalStep_eq (w : FeatureWindow) (rules : List Rule) (acc : RuleAcc) :
    List.foldl (evalStep w) acc rules =
      (acc.1 ++ (matchedOf rules w).map matchedEntry,
       acc.2.1 + weightSum (matchedOf rules w),
       acc.2.2 ++ (failedOf rules w).map Rule.id) := by
  induction rules generalizing acc with
  | nil => simp [matchedOf, failedOf, weightSum]
  | cons r rest ih =>
    simp only [List.foldl_cons]
    rw [ih]
    cases hc : evaluate_condition r.condition w with
    | ok b =>
      cases b with
      | true =>
        simp [evalStep, hc, matchedOf, failedOf, ruleMatches, ruleFails,
          weightSum, List.filter_cons, add_assoc]
      | false =>
        simp [evalStep, hc, matchedOf, failedOf, ruleMatches, ruleFails,
          List.filter_cons]
    | error e =>
      simp [evalStep, hc, matchedOf, failedOf, ruleMatches, ruleFails,
        List.filter_cons]

lemma rulesEvaluate_eq (rules : List Rule) (w : FeatureWindow) :
    rulesEvaluate rules w =
      { matched_rules := (matchedOf rules w).map matchedEntry
        rule_score := round3 (min (weightSum (matchedOf rules w)) 1)
        warnings := (failedOf rules w).map Rule.id } := by
  unfold rulesEvaluate
  rw [foldl_evalStep_eq]
  simp

lemma severity_to_score_pos (s : String) : 0 < severity_to_score s := by
  unfold severity_to_score
  dsimp only
  split_ifs <;> norm_num

lemma severity_to_score_le_one (s : String) : severity_to_score s ≤ 1 := by
  unfold severity_to_score
  dsimp only
  split_ifs <;> norm_num

lemma weightSum_nonneg (rs : List Rule) : 0 ≤ weightSum rs := by
  induction rs with
  | nil => simp [weightSum]
  | cons r rest ih =>
    have h := severity_to_score_pos (ruleSeverity r)
    simp only [weightSum, List.map_cons, List.sum_cons]
    have h2 : 0 ≤ (List.map (fun r => severity_to_score (ruleSeverity r)) rest).sum := ih
    linarith

lemma rule_score_bounds (rules : List Rule) (w : FeatureWindow) :
    0 ≤ (rulesEvaluate rules w).rule_score ∧ (rulesEvaluate rules w).rule_score ≤ 1 := by
  rw [rulesEvaluate_eq]
  exact round3_bounds (le_min (weightSum_nonneg _) zero_le_one) (min_le_right _ _)

lemma collectFeatures_missing (order : List String) (w : FeatureWindow)
    (hex : ∃ f ∈ order, lookupFeature w f = none) :
    ∃ g ∈ order, lookupFeature w g = none ∧
      collectFeatures order w = .error (.missingFeature g) := by
  induction order with
  | nil => simp at hex
  | cons f0 rest ih =>
    cases hl : lookupFeature w f0 with
    | none =>
      exact ⟨f0, by simp, hl, by simp [collectFeatures, hl]⟩
    | some v =>
      obtain ⟨f, hf, hfn⟩ := hex
      rcases List.mem_cons.mp hf with heq | hmem
      · rw [heq, hl] at hfn
        cases hfn
      · obtain ⟨g, hg, hgn, hgc⟩ := ih ⟨f, hmem, hfn⟩
        exact ⟨g, List.mem_cons_of_mem _ hg, hgn,
          by simp [collectFeatures, hl, hgc, Except.map]⟩

lemma clip_bounds (q : ℚ) : 0 ≤ clip q 0 1 ∧ clip q 0 1 ≤ 1 := by
  unfold clip
  constructor
  · exact le_max_left 0 _
  · exact max_le (by norm_num) (min_le_right q 1)

lemma predict_score_bounds (m : ModelLoader) (w : FeatureWindow) (ml : MLResult)
    (h : predict m w = .ok ml) : 0 ≤ ml.anomaly_score ∧ ml.anomaly_score ≤ 1 := by
  unfold predict at h
  cases hp : prepare_features m w with
  | error e => rw [hp] at h; exact absurd h (by simp)
  | ok X =>
    rw [hp] at h
    have hml : ml = { anomaly_score := round4 (clip (1 - m.decision_function X) 0 1)
                      is_anomaly := m.predictLabel X == -1 } := by
      cases h; rfl
    rw [hml]
    have hc := clip_bounds (1 - m.decision_function X)
    exact round4_bounds hc.1 hc.2

/-! Claim theorems. -/

/-- C1, counterexample: a rule whose condition contains a function call —
a construct outside the constrained predicate grammar — is not rejected at
load time; `_load_rules` accepts the rule set and an engine is produced,
refuting the claim that every such rule source fails with
`RuleDefinitionError`. -/
theorem C1_counterexample :
    containsDisallowed callRule.condition = true ∧
    load_rules (.list [callRule]) = .ok [callRule] :=
  ⟨rfl, rfl⟩

/-- C1, amended: `_load_rules` performs no validation of condition
expressions at all.  It fails only when the rules file is missing or its
content is not a list; any list of rule records — including ones whose
conditions contain function calls or attribute access — loads
successfully, conditions being handed unchecked to `eval` at evaluation
time. -/
theorem C1_amended_no_grammar_check :
    (∀ rules : List Rule, load_rules (.list rules) = .ok rules) ∧
    load_rules .missing = .error .fileNotFound ∧
    load_rules .notAList = .error .notAList :=
  ⟨fun _ => rfl, rfl, rfl⟩

/-- C2: for every rule set and window, `rule_score` equals the sum of the
severity weights of the matched rules, clipped at 1.0 and rounded to three
decimals, with weights low ↦ 0.2, medium ↦ 0.4, high ↦ 0.7,
critical ↦ 1.0; consequently `0 ≤ rule_score ≤ 1` however many severe
rules match. -/
theorem C2_rule_score_clipped (rules : List Rule) (w : FeatureWindow) :
    (severity_to_score "low" = 0.2 ∧ severity_to_score "medium" = 0.4 ∧
      severity_to_score "high" = 0.7 ∧ severity_to_score "critical" = 1.0) ∧
    (rulesEvaluate rules w).matched_rules = (matchedOf rules w).map matchedEntry ∧
    (rulesEvaluate rules w).rule_score =
      round3 (min (weightSum (matchedOf rules w)) 1) ∧
    0 ≤ (rulesEvaluate rules w).rule_score ∧
    (rulesEvaluate rules w).rule_score ≤ 1 := by
  refine ⟨⟨?_, ?_, ?_, ?_⟩, ?_, ?_, (rule_score_bounds rules w).1,
    (rule_score_bounds rules w).2⟩
  · simp +decide [severity_to_score, strLower]
  · simp +decide [severity_to_score, strLower]
  · simp +decide [severity_to_score, strLower]
  · simp +decide [severity_to_score, strLower]
  · rw [rulesEvaluate_eq]
  · rw [rulesEvaluate_eq]

/-- C3: severity classification follows the precedence table — any
matched rule stored with severity `"critical"` forces `critical` (even
below every score threshold); otherwise the thresholds 0.9 / 0.75 / 0.5
decide between critical, high, medium and low. -/
theorem C3_severity_precedence (fs : ℚ) (mr : List MatchedRule) :
    ((∃ r ∈ mr, r.severity = "critical") →
      determine_severity fs mr = "critical") ∧
    ((∀ r ∈ mr, r.severity ≠ "critical") →
      (fs ≥ 0.9 → determine_severity fs mr = "critical") ∧
      (fs ≥ 0.75 → fs < 0.9 → determine_severity fs mr = "high") ∧
      (fs ≥ 0.5 → fs < 0.75 → determine_severity fs mr = "medium") ∧
      (fs < 0.5 → determine_severity fs mr = "low")) := by
  unfold determine_severity
  constructor
  · intro hex
    obtain ⟨r, hrm, hrs⟩ := hex
    have hany : mr.any (fun r => r.severity == "critical") = true := by
      rw [List.any_eq_true]
      exact ⟨r, hrm, by simp [hrs]⟩
    simp [hany]
  · intro hall
    have hany : mr.any (fun r => r.severity == "critical") = false := by
      rw [List.any_eq_false]
      intro r hrm
      simp [hall r hrm]
    simp only [hany, Bool.false_eq_true, if_false]
    refine ⟨fun h1 => ?_, fun h1 h2 => ?_, fun h1 h2 => ?_, fun h1 => ?_⟩
    · rw [if_pos h1]
    · rw [if_neg (by linarith), if_pos h1]
    · rw [if_neg (by linarith), if_neg (by linarith), if_pos h1]
    · rw [if_neg (by linarith), if_neg (by linarith), if_neg (by linarith)]

/-- C3, witness: a window whose matched rules include a critical one is
classified critical although its final score 0.46 is below the 0.5
threshold. -/
theorem C3_witness :
    (46/100 : ℚ) < 0.5 ∧
    determine_severity (46/100) [⟨"r9", "", "critical"⟩] = "critical" := by
  constructor
  · norm_num
  · exact (C3_severity_precedence (46/100) [⟨"r9", "", "critical"⟩]).1
      ⟨⟨"r9", "", "critical"⟩, by simp, rfl⟩

/-- C8, counterexample: a rule source containing two rules with the same
id loads successfully — `_load_rules` does not check id uniqueness,
refuting the claim that duplicate ids fail with `RuleDefinitionError`. -/
theorem C8_counterexample :
    dupRuleA.id = dupRuleB.id ∧
    load_rules (.list [dupRuleA, dupRuleB]) = .ok [dupRuleA, dupRuleB] :=
  ⟨rfl, rfl⟩

/-- C8, amended: rule ids are not validated for uniqueness.  A rule set
with two rules sharing an id loads successfully, and when both conditions
hold on a window both rules are matched and contribute. -/
theorem C8_amended_duplicates_load (r1 r2 : Rule) (_hdup : r1.id = r2.id)
    (w : FeatureWindow)
    (h1 : evaluate_condition r1.condition w = .ok true)
    (h2 : evaluate_condition r2.condition w = .ok true) :
    load_rules (.list [r1, r2]) = .ok [r1, r2] ∧
    (rulesEvaluate [r1, r2] w).matched_rules =
      [matchedEntry r1, matchedEntry r2] := by
  refine ⟨rfl, ?_⟩
  rw [rulesEvaluate_eq]
  simp [matchedOf, List.filter_cons, ruleMatches, h1, h2]

/-- C8, witness: the duplicate-id pair `dupRuleA`/`dupRuleB` loads and
both rules match the window `wRules`. -/
theorem C8_witness :
    load_rules (.list [dupRuleA, dupRuleB]) = .ok [dupRuleA, dupRuleB] ∧
    (rulesEvaluate [dupRuleA, dupRuleB] wRules).matched_rules =
      [matchedEntry dupRuleA, matchedEntry dupRuleB] :=
  C8_amended_duplicates_load dupRuleA dupRuleB rfl wRules (by decide) (by decide)

/-- C4: whenever the ML prediction succeeds, `DecisionEngine.evaluate`
returns a result whose `final_score` is
`round(ml_weight * anomaly_score + rule_weight * rule_score, 4)` and whose
`is_intrusion` flag holds exactly when `final_score` reaches
`alert_threshold`; the constructor defaults are ml_weight 0.6,
rule_weight 0.4, alert_threshold 0.7. -/
theorem C4_fusion_formula (cfg : DecisionConfig) (m : ModelLoader)
    (rules : List Rule) (w : FeatureWindow) (ml : MLResult)
    (h : predict m w = .ok ml) :
    (∃ res : DecisionResult,
      decisionEvaluate cfg m rules w = .ok res ∧
      res.final_score = round4 (cfg.ml_weight * ml.anomaly_score +
        cfg.rule_weight * (rulesEvaluate rules w).rule_score) ∧
      (res.is_intrusion = true ↔ res.final_score ≥ cfg.alert_threshold) ∧
      res.ml_score = ml.anomaly_score ∧
      res.rule_score = (rulesEvaluate rules w).rule_score) ∧
    defaultConfig.ml_weight = 0.6 ∧
    defaultConfig.rule_weight = 0.4 ∧
    defaultConfig.alert_threshold = 0.7 := by
  refine ⟨?_, rfl, rfl, rfl⟩
  unfold decisionEvaluate
  rw [h]
  exact ⟨_, rfl, rfl, by simp [decide_eq_true_iff], rfl, rfl⟩

/-- C4, witness: with the default configuration, the trivial loader
`mldr1` (anomaly score 1/2) and no rules, the fusion formula and the
threshold characterization hold concretely. -/
theorem C4_witness :
    (∃ res : DecisionResult,
      decisionEvaluate defaultConfig mldr1 [] wOne = .ok res ∧
      res.final_score = round4 (defaultConfig.ml_weight * (1/2 : ℚ) +
        defaultConfig.rule_weight * (rulesEvaluate [] wOne).rule_score) ∧
      (res.is_intrusion = true ↔ res.final_score ≥ defaultConfig.alert_threshold) ∧
      res.ml_score = (1/2 : ℚ) ∧
      res.rule_score = (rulesEvaluate [] wOne).rule_score) ∧
    defaultConfig.ml_weight = 0.6 ∧
    defaultConfig.rule_weight = 0.4 ∧
    defaultConfig.alert_threshold = 0.7 :=
  C4_fusion_formula defaultConfig mldr1 [] wOne ⟨1/2, true⟩ (by
    simp +decide [predict, prepare_features, collectFeatures, lookupFeature,
      List.lookup, mldr1, wOne, Except.map, clip, round4, min_def, max_def]
    norm_num [round_eq])

/-- C5, counterexample: with weights 0.9/0.9 — each inside `[0,1]` but
summing past 1 — a maximal anomaly score and a matched critical rule
produce `final_score = 1.8`: the implementation does not clamp the fused
result into `[0,1]`, refuting the claim. -/
theorem C5_counterexample :
    (decisionEvaluate cfgHeavy mldrTop [critRule] wX).map
      DecisionResult.final_score = .ok (1.8 : ℚ) ∧
    (1 : ℚ) < 1.8 := by
  constructor
  · simp +decide [decisionEvaluate, predict, prepare_features, collectFeatures,
      mldrTop, cfgHeavy, rulesEvaluate_eq, matchedOf, List.filter_cons,
      ruleMatches, critRule, wX, weightSum, ruleSeverity, severity_to_score,
      strLower, Except.map, clip, round3, round4, min_def, max_def,
      determine_severity]
    norm_num [round_eq]
  · norm_num

/-- C5, amended: `DecisionEngine.evaluate` applies no clamp; `final_score`
can leave `[0,1]` when the weights sum past 1 (see the counterexample).
What holds instead: whenever both weights are nonnegative and sum to at
most 1 — as the defaults 0.6/0.4 do — every successfully produced result
has `final_score` in `[0,1]`, because both component scores are bounded by
construction. -/
theorem C5_amended_bounded_when_weights_sum_le_one (cfg : DecisionConfig)
    (m : ModelLoader) (rules : List Rule) (w : FeatureWindow)
    (res : DecisionResult)
    (hml : 0 ≤ cfg.ml_weight) (hrl : 0 ≤ cfg.rule_weight)
    (hsum : cfg.ml_weight + cfg.rule_weight ≤ 1)
    (h : decisionEvaluate cfg m rules w = .ok res) :
    0 ≤ res.final_score ∧ res.final_score ≤ 1 := by
  unfold decisionEvaluate at h
  cases hp : predict m w with
  | error e => rw [hp] at h; exact absurd h (by simp)
  | ok ml =>
    rw [hp] at h
    have hres : res.final_score = round4 (cfg.ml_weight * ml.anomaly_score +
        cfg.rule_weight * (rulesEvaluate rules w).rule_score) := by
      cases h; rfl
    have ha := predict_score_bounds m w ml hp
    have hr := rule_score_bounds rules w
    rw [hres]
    apply round4_bounds
    · exact add_nonneg (mul_nonneg hml ha.1) (mul_nonneg hrl hr.1)
    · nlinarith [mul_le_mul_of_nonneg_left ha.2 hml,
        mul_le_mul_of_nonneg_left hr.2 hrl]

/-- C5, witness: the default weights sum to 1, so the concrete default
evaluation below has its final score inside `[0,1]`. -/
theorem C5_witness :
    0 ≤ (⟨1, 0, 0.6, false, "medium", []⟩ : DecisionResult).final_score ∧
    (⟨1, 0, 0.6, false, "medium", []⟩ : DecisionResult).final_score ≤ 1 :=
  C5_amended_bounded_when_weights_sum_le_one defaultConfig mldrTop [] wX
    ⟨1, 0, 0.6, false, "medium", []⟩
    (show (0:ℚ) ≤ 0.6 by norm_num) (show (0:ℚ) ≤ 0.4 by norm_num)
    (show (0.6:ℚ) + 0.4 ≤ 1 by norm_num)
    (by
      simp +decide [decisionEvaluate, predict, prepare_features, collectFeatures,
        mldrTop, defaultConfig, rulesEvaluate_eq, matchedOf, List.filter_cons,
        ruleMatches, wX, weightSum, Except.map, clip, round3, round4,
        min_def, max_def, determine_severity]
      norm_num [round_eq])

/-- C6: a rule whose predicate raises at evaluation time is skipped with a
logged warning — removing it from the rule list changes neither the
matched rules nor the rule score, and its id appears among the printed
warnings; the evaluation always completes normally for the other rules. -/
theorem C6_failing_rule_isolated (xs ys : List Rule) (bad : Rule)
    (w : FeatureWindow) (e : EvalErr)
    (h : evaluate_condition bad.condition w = .error e) :
    (rulesEvaluate (xs ++ bad :: ys) w).matched_rules =
      (rulesEvaluate (xs ++ ys) w).matched_rules ∧
    (rulesEvaluate (xs ++ bad :: ys) w).rule_score =
      (rulesEvaluate (xs ++ ys) w).rule_score ∧
    bad.id ∈ (rulesEvaluate (xs ++ bad :: ys) w).warnings := by
  have hm : ruleMatches w bad = false := by simp [ruleMatches, h]
  have hf : ruleFails w bad = true := by simp [ruleFails, h]
  simp only [rulesEvaluate_eq]
  refine ⟨?_, ?_, ?_⟩
  · simp [matchedOf, List.filter_append, List.filter_cons, hm]
  · simp [matchedOf, List.filter_append, List.filter_cons, hm]
  · have hmem : bad ∈ failedOf (xs ++ bad :: ys) w := by
      simp [failedOf, List.filter_append, List.filter_cons, hf]
    exact List.mem_map_of_mem Rule.id hmem

/-- C6, witness: inserting `badRule` (whose condition references an absent
feature) between two valid rules leaves their matches and the score
unchanged, and `badRule`'s id is warned about. -/
theorem C6_witness :
    (rulesEvaluate ([ruleHigh] ++ badRule :: [ruleLow]) wRules).matched_rules =
      (rulesEvaluate ([ruleHigh] ++ [ruleLow]) wRules).matched_rules ∧
    (rulesEvaluate ([ruleHigh] ++ badRule :: [ruleLow]) wRules).rule_score =
      (rulesEvaluate ([ruleHigh] ++ [ruleLow]) wRules).rule_score ∧
    badRule.id ∈ (rulesEvaluate ([ruleHigh] ++ badRule :: [ruleLow]) wRules).warnings :=
  C6_failing_rule_isolated [ruleHigh] [ruleLow] badRule wRules
    (.nameError "no_such_feature") (by decide)

/-- C7: when a feature the scorer requires is absent from the window,
`predict` fails with an error naming a missing feature, and
`DecisionEngine.evaluate` propagates that same error to the caller without
producing any result — the window is not silently scored. -/
theorem C7_missing_feature_propagates (cfg : DecisionConfig) (m : ModelLoader)
    (rules : List Rule) (w : FeatureWindow) (f : String)
    (hf : f ∈ m.feature_order) (hw : lookupFeature w f = none) :
    ∃ g, g ∈ m.feature_order ∧ lookupFeature w g = none ∧
      predict m w = .error (.missingFeature g) ∧
      decisionEvaluate cfg m rules w = .error (.missingFeature g) := by
  obtain ⟨g, hg, hgn, hgc⟩ := collectFeatures_missing m.feature_order w ⟨f, hf, hw⟩
  have hprep : prepare_features m w = .error (.missingFeature g) := by
    unfold prepare_features
    rw [hgc]
    rfl
  have hpred : predict m w = .error (.missingFeature g) := by
    unfold predict
    rw [hprep]
  refine ⟨g, hg, hgn, hpred, ?_⟩
  unfold decisionEvaluate
  rw [hpred]

/-- C7, witness: `mldr2` requires `f2`, which `wOne` lacks; prediction and
the whole decision evaluation fail with the error naming `f2`. -/
theorem C7_witness :
    ∃ g, g ∈ mldr2.feature_order ∧ lookupFeature wOne g = none ∧
      predict mldr2 wOne = .error (.missingFeature g) ∧
      decisionEvaluate defaultConfig mldr2 [] wOne = .error (.missingFeature g) :=
  C7_missing_feature_propagates defaultConfig mldr2 [] wOne "f2"
    (by decide) (by decide)

/-- C9, counterexample: a matched rule with the unrecognized severity
label `"banana"` contributes weight 0.2, but its `matched_rules` entry
records the raw label `"banana"`, not `"low"` — refuting the claim that
the recorded severity is low. -/
theorem C9_counterexample :
    (rulesEvaluate [bananaRule] wX).matched_rules =
      [⟨"r_banana", "", "banana"⟩] ∧
    (("banana" : String) == "low") = false ∧
    (rulesEvaluate [bananaRule] wX).rule_score = 0.2 := by
  refine ⟨?_, by decide, ?_⟩
  · rw [rulesEvaluate_eq]
    simp +decide [matchedOf, List.filter_cons, ruleMatches, matchedEntry,
      ruleSeverity, ruleDescription, bananaRule]
  · rw [rulesEvaluate_eq]
    simp +decide [matchedOf, List.filter_cons, ruleMatches, weightSum,
      ruleSeverity, severity_to_score, strLower, bananaRule, round3, min_def]
    norm_num [round_eq]

/-- C9, amended: a rule whose severity label is absent is treated as low
in both places (weight 0.2, recorded label `"low"`); a present but
unrecognized label (its lower-casing matching none of the four recognized
values) also contributes weight 0.2, but the `matched_rules` entry records
the raw label itself rather than `"low"`. -/
theorem C9_amended_unrecognized_severity (r : Rule) (w : FeatureWindow)
    (hmatch : evaluate_condition r.condition w = .ok true) :
    (r.severity = none →
      (rulesEvaluate [r] w).matched_rules = [⟨r.id, ruleDescription r, "low"⟩] ∧
      (rulesEvaluate [r] w).rule_score = 0.2) ∧
    (∀ s, r.severity = some s →
      strLower s ≠ "low" → strLower s ≠ "medium" →
      strLower s ≠ "high" → strLower s ≠ "critical" →
      severity_to_score s = 0.2 ∧
      (rulesEvaluate [r] w).matched_rules = [⟨r.id, ruleDescription r, s⟩] ∧
      (rulesEvaluate [r] w).rule_score = 0.2) := by
  have hm : ruleMatches w r = true := by simp [ruleMatches, hmatch]
  have hmeq : rulesEvaluate [r] w =
      { matched_rules := [matchedEntry r]
        rule_score := round3 (min (severity_to_score (ruleSeverity r) + 0) 1)
        warnings := [] } := by
    rw [rulesEvaluate_eq]
    simp [matchedOf, failedOf, List.filter_cons, hm, ruleFails, hmatch, weightSum]
  constructor
  · intro hnone
    have hsev : ruleSeverity r = "low" := by simp [ruleSeverity, hnone]
    rw [hmeq]
    constructor
    · simp [matchedEntry, hsev]
    · rw [hsev]
      simp +decide [severity_to_score, strLower]
      norm_num [round3, round_eq, min_def]
  · intro s hsome h1 h2 h3 h4
    have hsev : ruleSeverity r = s := by simp [ruleSeverity, hsome]
    have hw : severity_to_score s = 0.2 := by
      unfold severity_to_score
      dsimp only
      rw [if_neg h1, if_neg h2, if_neg h3, if_neg h4]
    refine ⟨hw, ?_, ?_⟩
    · rw [hmeq]
      simp [matchedEntry, hsev]
    · rw [hmeq]
      simp only [hsev, hw]
      norm_num [round3, round_eq]

/-- C9, witness: the rule labelled `"banana"` matches `wX`; its weight is
0.2 while its matched entry keeps the raw label. -/
theorem C9_witness :
    severity_to_score "banana" = 0.2 ∧
    (rulesEvaluate [bananaRule] wX).matched_rules =
      [⟨bananaRule.id, ruleDescription bananaRule, "banana"⟩] ∧
    (rulesEvaluate [bananaRule] wX).rule_score = 0.2 :=
  (C9_amended_unrecognized_severity bananaRule wX (by decide)).2 "banana" rfl
    (by decide) (by decide) (by decide) (by decide)

/-- C10: a matched rule whose severity label equals `"critical"` only up
to letter case is treated inconsistently — the weight lookup lower-cases
and yields the full critical weight 1.0 (so a single such rule drives
`rule_score` to 1), while the stored raw label fails the case-sensitive
comparison in `_determine_severity`, so the critical override never fires:
severity equals what an empty match list would give, hence is not
`"critical"` below the 0.9 score threshold. -/
theorem C10_case_sensitivity_mismatch (s : String) (r : Rule)
    (w : FeatureWindow) (fs : ℚ)
    (hlower : strLower s = "critical") (hne : s ≠ "critical")
    (hsev : r.severity = some s)
    (hmatch : evaluate_condition r.condition w = .ok true) :
    severity_to_score s = 1.0 ∧
    (rulesEvaluate [r] w).rule_score = 1.0 ∧
    (rulesEvaluate [r] w).matched_rules = [⟨r.id, ruleDescription r, s⟩] ∧
    determine_severity fs (rulesEvaluate [r] w).matched_rules =
      determine_severity fs [] ∧
    (fs < 0.9 →
      determine_severity fs (rulesEvaluate [r] w).matched_rules ≠ "critical") := by
  have hm : ruleMatches w r = true := by simp [ruleMatches, hmatch]
  have hrs : ruleSeverity r = s := by simp [ruleSeverity, hsev]
  have hw : severity_to_score s = 1.0 := by
    unfold severity_to_score
    dsimp only
    rw [hlower, if_neg (by decide), if_neg (by decide), if_neg (by decide),
      if_pos rfl]
  have hb : (s == "critical") = false := beq_eq_false_iff_ne.mpr hne
  have hmeq : rulesEvaluate [r] w =
      { matched_rules := [⟨r.id, ruleDescription r, s⟩]
        rule_score := round3 (min (severity_to_score s + 0) 1)
        warnings := [] } := by
    rw [rulesEvaluate_eq]
    simp [matchedOf, failedOf, List.filter_cons, hm, ruleFails, hmatch,
      weightSum, matchedEntry, hrs]
  refine ⟨hw, ?_, ?_, ?_, ?_⟩
  · rw [hmeq]
    simp only [hw]
    norm_num [round3, round_eq]
  · rw [hmeq]
  · rw [hmeq]
    simp [determine_severity, hb]
  · intro h9
    rw [hmeq]
    simp only [determine_severity, List.any_cons, List.any_nil, hb]
    rw [if_neg (by simp), if_neg (by linarith)]
    split_ifs <;> decide

/-- C10, witness: the rule labelled `"Critical"` matching `wX` contributes
full weight 1.0 to the rule score, yet the decision engine classifies the
window (final score 0.46) below critical. -/
theorem C10_witness :
    severity_to_score "Critical" = 1.0 ∧
    (rulesEvaluate [casedRule] wX).rule_score = 1.0 ∧
    (rulesEvaluate [casedRule] wX).matched_rules =
      [⟨casedRule.id, ruleDescription casedRule, "Critical"⟩] ∧
    determine_severity (46/100) (rulesEvaluate [casedRule] wX).matched_rules =
      determine_severity (46/100) [] :=
  have h := C10_case_sensitivity_mismatch "Critical" casedRule wX (46/100)
    (by decide) (by decide) rfl (by decide)
  ⟨h.1, h.2.1, h.2.2.1, h.2.2.2.1⟩

end HybridIDS
